import Mathlib

/-!
Verification development for `st_curreny_converter.py`, a Streamlit
currency-converter app.  The Python source is shallowly embedded below:

* JSON values from the provider are modelled by `Json` (arrays are omitted:
  the code never inspects array structure, and a non-object value anywhere
  an object is expected takes the same catch-all failure branch as any
  other non-object).
* Python `dict.get(k)` returns `None` both when `k` is absent and when the
  stored value is JSON `null`; `pyGet` reproduces this.  `dict.get(k, d)`
  returns the stored value (even a stored `null`) and falls back to `d`
  only on absence; `pyGetD` reproduces this.  `json.loads` keeps the last
  of duplicate keys, so `dictGet` is last-binding-wins.
* The transport layer (`requests.get` + `raise_for_status` + `.json()`) is
  modelled by an oracle `http : String → HttpResult`: `netError` stands for
  any exception raised by `requests.get` (timeout, DNS failure, connection
  reset), `response status body` for a received HTTP response whose body
  parses to `some data`, or fails to parse (`none`).  `raise_for_status`
  raises exactly for status codes in [400, 600).
* Exceptions caught by the function's `except Exception` block are folded
  into the returned value `(none, none)`; the model function is total, which
  reflects that `get_exchange_rate` never raises to its caller.
* `get_exchange_rate` additionally returns the list of URLs it issued a GET
  to, so that "exactly one request" is expressible.
-/

inductive Json where
  | null : Json
  | bool (b : Bool) : Json
  | num (q : ℚ) : Json
  | str (s : String) : Json
  | obj (fields : List (String × Json)) : Json

/-- Last-binding-wins lookup in a JSON object's field list, mirroring how
`json.loads` builds a Python `dict` (later duplicate keys overwrite earlier
ones) and `dict.get` then looks the key up. `none` means the key is absent. -/
def dictGet (fields : List (String × Json)) (key : String) : Option Json :=
  ((fields.filter (fun p => p.1 = key)).getLast?).map (fun p => p.2)

/-- Python `d.get(k)`: absent keys and stored JSON `null` both come back as
Python `None`, i.e. `Json.null`. -/
def pyGet (fields : List (String × Json)) (key : String) : Json :=
  (dictGet fields key).getD Json.null

/-- Python `d.get(k, default)`: the stored value if the key is present
(including a stored `null`), otherwise `default`. -/
def pyGetD (fields : List (String × Json)) (key : String) (default : Json) : Json :=
  (dictGet fields key).getD default

/-- Python `==` between a decoded JSON value and a string: true exactly when
the value is that string (any non-string JSON value compares unequal). -/
def jsonEqString (j : Json) (s : String) : Bool :=
  match j with
  | Json.str t => t = s
  | _ => false

/-- Python `x is None` on a decoded JSON value. -/
def Json.isNull (j : Json) : Bool :=
  match j with
  | Json.null => true
  | _ => false

/-- Outcome of `requests.get(url, timeout=10)` followed by `.json()`:
either the call raised (timeout, DNS, connection error), or a response with
a status code arrived, whose body parses to `some data` or is malformed. -/
inductive HttpResult where
  | netError : HttpResult
  | response (status : Nat) (body : Option Json) : HttpResult

/-- Python `str.upper()`: uppercase each character.  (`Char.toUpper` only
uppercases ASCII letters; currency codes are ASCII, where Python agrees.) -/
def upper (s : String) : String :=
  String.mk (s.data.map Char.toUpper)

/-- `f"https://open.er-api.com/v6/latest/{base_currency.upper()}"` -/
def build_url (base_currency : String) : String :=
  "https://open.er-api.com/v6/latest/" ++ upper base_currency

/-- Lines 49–73 of the source: validation of an already-parsed response
body `data`.  Returns `(rate, api_time_str)` on success, `(None, None)`
on any failure.  A non-object where an object is expected raises
`AttributeError` in Python, which the enclosing `except` turns into
`(None, None)`. -/
def parse_rate_response (target_currency : String) (data : Json) :
    Option Json × Option Json :=
  match data with
  | Json.obj fields =>
    if jsonEqString (pyGet fields "result") "success" = false then (none, none)
    else
      match pyGetD fields "rates" (Json.obj []) with
      | Json.obj rates =>
        let rate := pyGet rates (upper target_currency)
        if rate.isNull then (none, none)
        else (some rate, some (pyGetD fields "time_last_update_utc" (Json.str "Unknown")))
      | _ => (none, none)
  | _ => (none, none)

/-- The whole of `get_exchange_rate(base_currency, target_currency)`.
`http` is the network oracle; the second component of the result is the
list of URLs GET requests were issued to (always exactly one).  The first
component is the Python return value: `(rate, api_time_str)` on success,
`(None, None)` on every failure path. -/
def get_exchange_rate (http : String → HttpResult)
    (base_currency target_currency : String) :
    (Option Json × Option Json) × List String :=
  let url := build_url base_currency
  (match http url with
   | HttpResult.netError => (none, none)
   | HttpResult.response status body =>
     if 400 ≤ status ∧ status < 600 then (none, none)
     else
       match body with
       | none => (none, none)
       | some data => parse_rate_response target_currency data,
   [url])

/-- Round-half-even (banker's rounding) of a rational to an integer, the
rounding Python uses when formatting a float with `%.Nf`.  (For values that
are exact binary floats, ties at the rounding position cannot occur, so any
tie-breaking rule agrees with Python there.) -/
def roundHalfEven (q : ℚ) : ℤ :=
  let f : ℤ := ⌊q⌋
  let r : ℚ := q - f
  if r < 1 / 2 then f
  else if 1 / 2 < r then f + 1
  else if f % 2 = 0 then f else f + 1

def padLeftZeros (s : String) (n : Nat) : String :=
  String.mk (List.replicate (n - s.length) '0') ++ s

def group3Aux : List Char → List Char
  | a :: b :: c :: d :: rest => a :: b :: c :: ',' :: group3Aux (d :: rest)
  | l => l

/-- Insert thousands separators into a digit string, as Python's `,` format
option does to the integer part. -/
def group3 (s : String) : String :=
  String.mk (group3Aux s.toList.reverse).reverse

/-- Python `f"{x:.Nf}"` (with `N = prec > 0`): fixed-point notation with
exactly `prec` digits after the decimal point. -/
def formatFixed (prec : Nat) (q : ℚ) : String :=
  let n : ℤ := roundHalfEven (q * (10 : ℚ) ^ prec)
  let a : ℕ := n.natAbs
  (if n < 0 then "-" else "")
    ++ toString (a / 10 ^ prec) ++ "." ++ padLeftZeros (toString (a % 10 ^ prec)) prec

/-- Python `f"{x:,.Nf}"`: as `formatFixed`, with thousands separators in the
integer part. -/
def formatFixedComma (prec : Nat) (q : ℚ) : String :=
  let n : ℤ := roundHalfEven (q * (10 : ℚ) ^ prec)
  let a : ℕ := n.natAbs
  (if n < 0 then "-" else "")
    ++ group3 (toString (a / 10 ^ prec)) ++ "." ++ padLeftZeros (toString (a % 10 ^ prec)) prec

/-- `st.session_state.from_currency` / `st.session_state.to_currency`. -/
structure SessionState where
  from_currency : String
  to_currency : String
deriving DecidableEq

def currency_list : List String :=
  ["GBP", "USD", "EUR", "INR", "AUD", "CAD", "JPY", "CHF", "CNY"]

/-- Lines 114–121 of the source, `"Custom"` mapped to `(None, None)`. -/
def preset_map : List (String × (Option String × Option String)) :=
  [("Custom", (none, none)),
   ("GBP → USD (default)", (some "GBP", some "USD")),
   ("USD → GBP", (some "USD", some "GBP")),
   ("EUR → GBP", (some "EUR", some "GBP")),
   ("GBP → INR", (some "GBP", some "INR")),
   ("EUR → USD", (some "EUR", some "USD"))]

/-- Lines 131–135: `base, target = preset_map[preset_label]`, then overwrite
the session state only when both components are non-`None`.  (A label outside
the map would raise `KeyError`; the selectbox restricts labels to the map's
keys, so that case is modelled as leaving the state unchanged.) -/
def select_preset (preset_label : String) (state : SessionState) : SessionState :=
  match preset_map.lookup preset_label with
  | some (some base, some target) => ⟨base, target⟩
  | _ => state

/-- What the Convert click renders.  `raised` is the uncaught `TypeError`
Python would hit at `amount * rate` when the stored rate is not a number.
The `st.success` banner and the `st.caption` line (which includes the local
wall-clock time) are constant decoration and are not modelled. -/
inductive Rendered where
  | warning (msg : String) : Rendered
  | errorBox (msg : String) : Rendered
  | metric (label value delta : String) : Rendered
  | raised : Rendered
deriving DecidableEq

/-- Lines 167–187: the body of `if st.button("Convert")`.  Returns the
rendered outcome together with the number of calls made to
`get_exchange_rate` — the only site that performs network I/O or writes the
diagnostic log.  `fetch` abstracts `get_exchange_rate`'s return value for a
pair; `amount` is the number-input widget's value. -/
def convert_click (fetch : String → String → Option Json × Option Json)
    (from_currency to_currency : String) (amount : ℚ) : Rendered × Nat :=
  if from_currency = to_currency then
    (Rendered.warning "Please choose two different currencies.", 0)
  else if amount ≤ 0 then
    (Rendered.warning "Please enter an amount greater than zero.", 0)
  else
    match fetch from_currency to_currency with
    | (none, _) =>
      (Rendered.errorBox "Unable to fetch exchange rate. Please try again later.", 1)
    | (some (Json.num rate), _) =>
      (Rendered.metric
        (formatFixed 2 amount ++ " " ++ from_currency ++ " in " ++ to_currency)
        (formatFixedComma 4 (amount * rate) ++ " " ++ to_currency)
        ("1 " ++ from_currency ++ " = " ++ formatFixed 4 rate ++ " " ++ to_currency), 1)
    | (some _, _) => (Rendered.raised, 1)

theorem jsonEqString_true_iff (j : Json) (s : String) :
    jsonEqString j s = true ↔ j = Json.str s := by
  cases j <;> simp [jsonEqString]

theorem isNull_true_iff (j : Json) : j.isNull = true ↔ j = Json.null := by
  cases j <;> simp [Json.isNull]

/-- C1: for every valid distinct currency pair and every successful provider
response whose rate table contains the uppercased target code with a numeric
value, `get_exchange_rate` returns that numeric rate exactly as it appears in
the response and the provider's `time_last_update_utc` string unchanged. -/
theorem c1_success_passthrough
    (http : String → HttpResult) (base_currency target_currency : String)
    (fields rates : List (String × Json)) (q : ℚ) (s : String)
    (hdistinct : base_currency ≠ target_currency)
    (hhttp : http (build_url base_currency)
      = HttpResult.response 200 (some (Json.obj fields)))
    (hres : pyGet fields "result" = Json.str "success")
    (hrates : pyGetD fields "rates" (Json.obj []) = Json.obj rates)
    (hrate : pyGet rates (upper target_currency) = Json.num q)
    (htime : pyGetD fields "time_last_update_utc" (Json.str "Unknown") = Json.str s) :
    (get_exchange_rate http base_currency target_currency).1
      = (some (Json.num q), some (Json.str s)) := by
  have h200 : ¬ (400 ≤ 200 ∧ 200 < 600) := by norm_num
  have hok : jsonEqString (pyGet fields "result") "success" = true := by
    rw [hres]; rfl
  have hnn : (pyGet rates (upper target_currency)).isNull = false := by
    rw [hrate]; rfl
  simp only [get_exchange_rate, hhttp, if_neg h200]
  simp only [parse_rate_response, hok, hrates, hrate, htime, hnn]
  simp [Json.isNull]

/-- Witness for C1 at a concrete response. -/
theorem c1_success_passthrough_witness :
    (get_exchange_rate
      (fun _ => HttpResult.response 200 (some (Json.obj
        [("result", Json.str "success"),
         ("time_last_update_utc", Json.str "Fri, 02 Apr 2020 00:06:37 +0000"),
         ("rates", Json.obj [("EUR", Json.num (mkRat 919 1000))])])))
      "usd" "eur").1
    = (some (Json.num (mkRat 919 1000)),
       some (Json.str "Fri, 02 Apr 2020 00:06:37 +0000")) :=
  c1_success_passthrough _ _ _ _ _ _ _ (by decide) rfl rfl rfl rfl rfl

/-- C3: for every provider response whose top-level `result` field is any
value other than the literal `"success"`, `get_exchange_rate` returns
`(None, None)` regardless of the rest of the payload. -/
theorem c3_result_not_success_fails
    (http : String → HttpResult) (base_currency target_currency : String)
    (status : Nat) (fields : List (String × Json))
    (hhttp : http (build_url base_currency)
      = HttpResult.response status (some (Json.obj fields)))
    (hres : pyGet fields "result" ≠ Json.str "success") :
    (get_exchange_rate http base_currency target_currency).1 = (none, none) := by
  have hfail : jsonEqString (pyGet fields "result") "success" = false := by
    cases h : jsonEqString (pyGet fields "result") "success"
    · rfl
    · exact absurd ((jsonEqString_true_iff _ _).mp h) hres
  by_cases hs : 400 ≤ status ∧ status < 600
  · simp only [get_exchange_rate, hhttp, if_pos hs]
  · simp only [get_exchange_rate, hhttp, if_neg hs, parse_rate_response, hfail]
    simp

/-- Witness for C3 at a concrete `"result": "fail"` response. -/
theorem c3_result_not_success_fails_witness :
    (get_exchange_rate
      (fun _ => HttpResult.response 200 (some (Json.obj
        [("result", Json.str "fail"),
         ("rates", Json.obj [("USD", Json.num 1)])])))
      "GBP" "USD").1 = (none, none) :=
  c3_result_not_success_fails _ _ _ _ _ rfl (by simp [pyGet, dictGet])

/-- C4: for every provider response with result `"success"` whose rates
table does not contain the uppercased target currency code,
`get_exchange_rate` returns `(None, None)`. -/
theorem c4_missing_target_rate_fails
    (http : String → HttpResult) (base_currency target_currency : String)
    (status : Nat) (fields rates : List (String × Json))
    (hhttp : http (build_url base_currency)
      = HttpResult.response status (some (Json.obj fields)))
    (hres : pyGet fields "result" = Json.str "success")
    (hrates : pyGetD fields "rates" (Json.obj []) = Json.obj rates)
    (habsent : dictGet rates (upper target_currency) = none) :
    (get_exchange_rate http base_currency target_currency).1 = (none, none) := by
  have hok : jsonEqString (pyGet fields "result") "success" = true := by
    rw [hres]; rfl
  have hnull : (pyGet rates (upper target_currency)).isNull = true := by
    unfold pyGet
    rw [habsent]; rfl
  by_cases hs : 400 ≤ status ∧ status < 600
  · simp only [get_exchange_rate, hhttp, if_pos hs]
  · simp only [get_exchange_rate, hhttp, if_neg hs, parse_rate_response, hok, hrates, hnull]
    simp

/-- Witness for C4: a success response whose table lacks the target code. -/
theorem c4_missing_target_rate_fails_witness :
    (get_exchange_rate
      (fun _ => HttpResult.response 200 (some (Json.obj
        [("result", Json.str "success"),
         ("rates", Json.obj [("EUR", Json.num 1)])])))
      "GBP" "USD").1 = (none, none) :=
  c4_missing_target_rate_fails _ _ _ _ _ _ rfl rfl rfl rfl

/-- C6: for every base currency code (and any network behavior),
`get_exchange_rate` issues exactly one GET, to the fixed endpoint template
with the uppercased base code substituted. -/
theorem c6_single_get_to_templated_url
    (http : String → HttpResult) (base_currency target_currency : String) :
    (get_exchange_rate http base_currency target_currency).2
      = ["https://open.er-api.com/v6/latest/" ++ upper base_currency] := rfl

/-- C10: a successful response (result `"success"`, target rate present)
that lacks the `time_last_update_utc` field still yields Success, with the
literal string `"Unknown"` as the timestamp. -/
theorem c10_missing_timestamp_defaults_unknown
    (http : String → HttpResult) (base_currency target_currency : String)
    (fields rates : List (String × Json)) (q : ℚ)
    (hhttp : http (build_url base_currency)
      = HttpResult.response 200 (some (Json.obj fields)))
    (hres : pyGet fields "result" = Json.str "success")
    (hrates : pyGetD fields "rates" (Json.obj []) = Json.obj rates)
    (hrate : pyGet rates (upper target_currency) = Json.num q)
    (hmissing : dictGet fields "time_last_update_utc" = none) :
    (get_exchange_rate http base_currency target_currency).1
      = (some (Json.num q), some (Json.str "Unknown")) := by
  have h200 : ¬ (400 ≤ 200 ∧ 200 < 600) := by norm_num
  have hok : jsonEqString (pyGet fields "result") "success" = true := by
    rw [hres]; rfl
  have htime : pyGetD fields "time_last_update_utc" (Json.str "Unknown")
      = Json.str "Unknown" := by
    unfold pyGetD
    rw [hmissing]; rfl
  simp only [get_exchange_rate, hhttp, if_neg h200]
  simp only [parse_rate_response, hok, hrates, hrate, htime]
  simp [Json.isNull]

/-- Witness for C10: success response with no `time_last_update_utc`. -/
theorem c10_missing_timestamp_defaults_unknown_witness :
    (get_exchange_rate
      (fun _ => HttpResult.response 200 (some (Json.obj
        [("result", Json.str "success"),
         ("rates", Json.obj [("USD", Json.num (mkRat 5 4))])])))
      "GBP" "USD").1
    = (some (Json.num (mkRat 5 4)), some (Json.str "Unknown")) :=
  c10_missing_timestamp_defaults_unknown _ _ _ _ _ _ rfl rfl rfl rfl rfl

/-- C5 counterexample: an HTTP 300 response is not 2xx, yet with a valid
success body `get_exchange_rate` returns Success, not `(None, None)` —
`raise_for_status` only raises for 4xx/5xx. -/
theorem c5_counterexample_status300 :
    (get_exchange_rate
      (fun _ => HttpResult.response 300 (some (Json.obj
        [("result", Json.str "success"),
         ("rates", Json.obj [("USD", Json.num 1)])])))
      "GBP" "USD").1 = (some (Json.num 1), some (Json.str "Unknown"))
    ∧ ¬ (200 ≤ 300 ∧ 300 < 300)
    ∧ (some (Json.num 1), some (Json.str "Unknown"))
        ≠ ((none, none) : Option Json × Option Json) := by
  refine ⟨rfl, by norm_num, fun h => ?_⟩
  exact Option.noConfusion (congrArg Prod.fst h)

/-- C5 (amended): for every request that raises at the network level
(timeout, DNS failure, connection error) and for every HTTP response with a
4xx/5xx status, `get_exchange_rate` returns `(None, None)` and never raises
to the caller; a non-2xx status below 400 is not by itself treated as
failure. -/
theorem c5_amended_transport_failures
    (http : String → HttpResult) (base_currency target_currency : String)
    (status : Nat) (body : Option Json)
    (h : http (build_url base_currency) = HttpResult.netError
      ∨ (http (build_url base_currency) = HttpResult.response status body
         ∧ 400 ≤ status ∧ status < 600)) :
    (get_exchange_rate http base_currency target_currency).1 = (none, none) := by
  rcases h with h | ⟨h, hs1, hs2⟩
  · simp only [get_exchange_rate, h]
  · simp only [get_exchange_rate, h, if_pos (And.intro hs1 hs2)]

/-- Witness for the amended C5: a timed-out request. -/
theorem c5_amended_transport_failures_witness :
    (get_exchange_rate (fun _ => HttpResult.netError) "GBP" "USD").1
      = (none, none) :=
  c5_amended_transport_failures _ _ _ 0 none (Or.inl rfl)

/-- C2 counterexample: a success response storing the non-positive rate −1
under the target code makes `get_exchange_rate` return Success carrying −1,
so a Success rate need not be positive. -/
theorem c2_counterexample_nonpositive_rate :
    (get_exchange_rate
      (fun _ => HttpResult.response 200 (some (Json.obj
        [("result", Json.str "success"),
         ("rates", Json.obj [("USD", Json.num (-1))])])))
      "EUR" "USD").1 = (some (Json.num (-1)), some (Json.str "Unknown"))
    ∧ ¬ (0 < (-1 : ℚ)) :=
  ⟨rfl, by norm_num⟩

/-- C2 (amended): whenever `get_exchange_rate` returns a Success result
(a non-`None` rate), that rate is exactly the value stored in the response's
rates table under the uppercased target code, and it is not `null`; the code
performs no positivity, finiteness, or numeric-type check on it. -/
theorem c2_amended_success_rate_from_table
    (http : String → HttpResult) (base_currency target_currency : String)
    (r : Json) (t : Option Json)
    (h : (get_exchange_rate http base_currency target_currency).1 = (some r, t)) :
    ∃ status fields rates,
      http (build_url base_currency)
          = HttpResult.response status (some (Json.obj fields))
      ∧ ¬ (400 ≤ status ∧ status < 600)
      ∧ pyGet fields "result" = Json.str "success"
      ∧ pyGetD fields "rates" (Json.obj []) = Json.obj rates
      ∧ pyGet rates (upper target_currency) = r
      ∧ r ≠ Json.null
      ∧ t = some (pyGetD fields "time_last_update_utc" (Json.str "Unknown")) := by
  simp only [get_exchange_rate] at h
  split at h
  · simp at h
  · rename_i status body heq
    split at h
    · simp at h
    · rename_i hs
      split at h
      · simp at h
      · rename_i data
        cases data with
        | null => simp [parse_rate_response] at h
        | bool b => simp [parse_rate_response] at h
        | num q => simp [parse_rate_response] at h
        | str s => simp [parse_rate_response] at h
        | obj fields =>
          simp only [parse_rate_response] at h
          split at h
          · simp at h
          · rename_i hres
            split at h
            case _ rates hrts =>
              split at h
              · simp at h
              · rename_i hnull
                obtain ⟨h1, h2⟩ := Prod.mk.injEq .. ▸ h
                have hr : pyGet rates (upper target_currency) = r := Option.some.inj h1
                refine ⟨status, fields, rates, heq, hs,
                  (jsonEqString_true_iff _ _).mp (by simpa using hres), hrts, hr, ?_, h2.symm⟩
                intro hcontra
                rw [hr, hcontra] at hnull
                exact hnull rfl
            all_goals simp at h

/-- Witness for the amended C2: the Success rate −1 is exactly the stored
table value. -/
theorem c2_amended_success_rate_from_table_witness :
    ∃ status fields rates,
      HttpResult.response 200 (some (Json.obj
        [("result", Json.str "success"),
         ("rates", Json.obj [("USD", Json.num (-1))])]))
          = HttpResult.response status (some (Json.obj fields))
      ∧ ¬ (400 ≤ status ∧ status < 600)
      ∧ pyGet fields "result" = Json.str "success"
      ∧ pyGetD fields "rates" (Json.obj []) = Json.obj rates
      ∧ pyGet rates (upper "USD") = Json.num (-1)
      ∧ Json.num (-1) ≠ Json.null
      ∧ (some (Json.str "Unknown") : Option Json)
          = some (pyGetD fields "time_last_update_utc" (Json.str "Unknown")) :=
  c2_amended_success_rate_from_table
    (fun _ => HttpResult.response 200 (some (Json.obj
        [("result", Json.str "success"),
         ("rates", Json.obj [("USD", Json.num (-1))])])))
    "EUR" "USD" (Json.num (-1)) (some (Json.str "Unknown")) rfl

/-- C7: on the convert action, if the selected base currency equals the
target or the amount is not positive, a user-visible warning is rendered and
`get_exchange_rate` is invoked zero times — hence no network call and no
diagnostic log entry, since logging happens only inside `get_exchange_rate`. -/
theorem c7_validation_blocks_fetch
    (fetch : String → String → Option Json × Option Json)
    (from_currency to_currency : String) (amount : ℚ)
    (h : from_currency = to_currency ∨ amount ≤ 0) :
    (∃ msg, (convert_click fetch from_currency to_currency amount).1
      = Rendered.warning msg)
    ∧ (convert_click fetch from_currency to_currency amount).2 = 0 := by
  by_cases he : from_currency = to_currency
  · refine ⟨⟨"Please choose two different currencies.", ?_⟩, ?_⟩ <;>
      simp only [convert_click, if_pos he]
  · have ha : amount ≤ 0 := h.resolve_left he
    refine ⟨⟨"Please enter an amount greater than zero.", ?_⟩, ?_⟩ <;>
      simp only [convert_click, if_neg he, if_pos ha]

/-- Witness for C7: equal currencies with a positive amount. -/
theorem c7_validation_blocks_fetch_witness :
    (∃ msg, (convert_click (fun _ _ => (none, none)) "USD" "USD" 1).1
      = Rendered.warning msg)
    ∧ (convert_click (fun _ _ => (none, none)) "USD" "USD" 1).2 = 0 :=
  c7_validation_blocks_fetch _ "USD" "USD" 1 (Or.inl rfl)

unseal Rat.mul Rat.add Rat.sub Rat.inv Rat.ofScientific in
/-- C8: on a successful conversion the displayed converted amount is
amount × rate rendered by Python `:,.4f` (4 decimal places) and the
unit-rate line reads `1 <FROM> = <rate:.4f> <TO>`; concretely, rate 1.25
with amount 10 renders as `12.5000` and the unit-rate digits as `1.2500`. -/
theorem c8_display_formatting
    (fetch : String → String → Option Json × Option Json)
    (from_currency to_currency : String) (amount q : ℚ) (t : Option Json)
    (hne : from_currency ≠ to_currency) (hpos : 0 < amount)
    (hfetch : fetch from_currency to_currency = (some (Json.num q), t)) :
    convert_click fetch from_currency to_currency amount
      = (Rendered.metric
          (formatFixed 2 amount ++ " " ++ from_currency ++ " in " ++ to_currency)
          (formatFixedComma 4 (amount * q) ++ " " ++ to_currency)
          ("1 " ++ from_currency ++ " = " ++ formatFixed 4 q ++ " " ++ to_currency),
         1)
    ∧ formatFixedComma 4 ((10 : ℚ) * (5 / 4)) = "12.5000"
    ∧ formatFixed 4 ((5 : ℚ) / 4) = "1.2500" := by
  refine ⟨?_, by decide, by decide⟩
  simp only [convert_click, if_neg hne, if_neg (not_le.mpr hpos), hfetch]

unseal Rat.mul Rat.add Rat.sub Rat.inv Rat.ofScientific in
/-- Witness for C8 with rate 1.25 and amount 10. -/
theorem c8_display_formatting_witness :
    convert_click (fun _ _ => (some (Json.num (5 / 4)), some (Json.str "T")))
      "GBP" "USD" 10
      = (Rendered.metric "10.00 GBP in USD" "12.5000 USD" "1 GBP = 1.2500 USD",
         1) := by
  have h := c8_display_formatting
    (fun _ _ => (some (Json.num (5 / 4)), some (Json.str "T")))
    "GBP" "USD" 10 (5 / 4) (some (Json.str "T")) (by decide) (by norm_num) rfl
  exact h.1.trans (by decide)

/-- C9: selecting any named preset other than `"Custom"` overwrites both
stored currency selections to that preset's pair; selecting `"Custom"`
leaves both selections unchanged. -/
theorem c9_preset_selection
    (state : SessionState) (preset_label b t : String)
    (hmem : (preset_label, (some b, some t)) ∈ preset_map)
    (hnotcustom : preset_label ≠ "Custom") :
    select_preset preset_label state = ⟨b, t⟩
    ∧ select_preset "Custom" state = state := by
  refine ⟨?_, rfl⟩
  simp only [preset_map, List.mem_cons, List.not_mem_nil, or_false,
    Prod.mk.injEq, Option.some.injEq, reduceCtorEq, false_and, and_false,
    false_or] at hmem
  rcases hmem with ⟨rfl, rfl, rfl⟩ | ⟨rfl, rfl, rfl⟩ | ⟨rfl, rfl, rfl⟩
    | ⟨rfl, rfl, rfl⟩ | ⟨rfl, rfl, rfl⟩
  all_goals rfl

/-- Witness for C9 at the `"EUR → USD"` preset. -/
theorem c9_preset_selection_witness :
    select_preset "EUR → USD" ⟨"JPY", "CHF"⟩ = ⟨"EUR", "USD"⟩
    ∧ select_preset "Custom" ⟨"JPY", "CHF"⟩ = (⟨"JPY", "CHF"⟩ : SessionState) :=
  c9_preset_selection ⟨"JPY", "CHF"⟩ "EUR → USD" "EUR" "USD"
    (by simp [preset_map]) (by decide)
